import Mathlib

/-!
Verification development for the miner-API task-coordination and
response-extraction layer.

The Lean definitions below are shallow embeddings of the Python source:

* `src/utils/task_hash.py`          — `generate_task_hash` (task fingerprinting)
* `src/services/components.py`      — `parse_json_response`, `try_parse_json_string`,
                                      `extract_notebook_content`, the brace-matching
                                      fallbacks, the "no update" resolution loop and
                                      the `component_complete` coordination flow
* `src/services/redis_service.py`   — `store_solution`, `get_solution`,
                                      `wait_for_solution`

Machine integers are modelled as `Nat` with explicit `% 2^w` reductions,
Python exceptions as `Except`/`Option`, and the external Redis store and the
LLM generator as explicit environment parameters.  `hashlib.sha256` is
modelled by a full FIPS 180-4 SHA-256 implementation over byte lists.
-/

/-- Reduction of a natural number to a 32-bit word, modelling Python/C
unsigned 32-bit arithmetic used by SHA-256. -/
def u32 (n : Nat) : Nat := n % 4294967296

/-- Bitwise complement within 32 bits. -/
def not32 (n : Nat) : Nat := (n % 4294967296) ^^^ 4294967295

/-- Right rotation of a 32-bit word by `n` bits. -/
def rotr32 (n w : Nat) : Nat := u32 ((w >>> n) ||| (w <<< (32 - n)))

/-- SHA-256 `Ch` function. -/
def sha2Ch (e f g : Nat) : Nat := (e &&& f) ^^^ (not32 e &&& g)

/-- SHA-256 `Maj` function. -/
def sha2Maj (a b c : Nat) : Nat := (a &&& b) ^^^ (a &&& c) ^^^ (b &&& c)

/-- SHA-256 big sigma 0. -/
def bsig0 (w : Nat) : Nat := rotr32 2 w ^^^ rotr32 13 w ^^^ rotr32 22 w

/-- SHA-256 big sigma 1. -/
def bsig1 (w : Nat) : Nat := rotr32 6 w ^^^ rotr32 11 w ^^^ rotr32 25 w

/-- SHA-256 small sigma 0. -/
def ssig0 (w : Nat) : Nat := rotr32 7 w ^^^ rotr32 18 w ^^^ (w >>> 3)

/-- SHA-256 small sigma 1. -/
def ssig1 (w : Nat) : Nat := rotr32 17 w ^^^ rotr32 19 w ^^^ (w >>> 10)

/-- The 64 SHA-256 round constants of FIPS 180-4, written in decimal
(`0x428a2f98` is `1116352408`, and so on). -/
def sha2K : List Nat :=
  [1116352408, 1899447441, 3049323471, 3921009573, 961987163,
   1508970993, 2453635748, 2870763221, 3624381080, 310598401,
   607225278, 1426881987, 1925078388, 2162078206, 2614888103,
   3248222580, 3835390401, 4022224774, 264347078, 604807628,
   770255983, 1249150122, 1555081692, 1996064986, 2554220882,
   2821834349, 2952996808, 3210313671, 3336571891, 3584528711,
   113926993, 338241895, 666307205, 773529912, 1294757372,
   1396182291, 1695183700, 1986661051, 2177026350, 2456956037,
   2730485921, 2820302411, 3259730800, 3345764771, 3516065817,
   3600352804, 4094571909, 275423344, 430227734, 506948616,
   659060556, 883997877, 958139571, 1322822218, 1537002063,
   1747873779, 1955562222, 2024104815, 2227730452, 2361852424,
   2428436474, 2756734187, 3204031479, 3329325298]

/-- Working state of the SHA-256 compression function: eight 32-bit words. -/
structure Sha2State where
  a : Nat
  b : Nat
  c : Nat
  d : Nat
  e : Nat
  f : Nat
  g : Nat
  h : Nat

/-- Initial SHA-256 hash value of FIPS 180-4, in decimal
(`0x6a09e667` is `1779033703`, and so on). -/
def sha2H0 : Sha2State :=
  ⟨1779033703, 3144134277, 1013904242, 2773480762,
   1359893119, 2600822924, 528734635, 1541459225⟩

/-- Message padding: append `0x80`, zero bytes up to 56 mod 64, then the
bit length as an 8-byte big-endian integer. -/
def sha2Pad (msg : List Nat) : List Nat :=
  let L := msg.length
  let padLen := (119 - (L % 64)) % 64
  let bitLen := 8 * L
  msg ++ 0x80 :: List.replicate padLen 0 ++
    [(bitLen >>> 56) % 256, (bitLen >>> 48) % 256, (bitLen >>> 40) % 256,
     (bitLen >>> 32) % 256, (bitLen >>> 24) % 256, (bitLen >>> 16) % 256,
     (bitLen >>> 8) % 256, bitLen % 256]

/-- Group a padded byte list into big-endian 32-bit words. -/
def sha2Words : List Nat → List Nat
  | a :: b :: c :: d :: rest =>
      (a * 16777216 + b * 65536 + c * 256 + d) :: sha2Words rest
  | _ => []

/-- Split a word list into 16-word blocks; `fuel` bounds the number of
blocks (always sufficient at the call site). -/
def sha2Blocks : Nat → List Nat → List (List Nat)
  | 0, _ => []
  | _, [] => []
  | fuel + 1, ws => ws.take 16 :: sha2Blocks fuel (ws.drop 16)

/-- Message-schedule extension of a 16-word block to 64 words; each fuel
step appends one word (48 steps at the call site). -/
def sha2Extend : Nat → List Nat → List Nat
  | 0, ws => ws
  | fuel + 1, ws =>
      let n := ws.length
      let w := u32 (ssig1 (ws.getD (n - 2) 0) + ws.getD (n - 7) 0 +
                    ssig0 (ws.getD (n - 15) 0) + ws.getD (n - 16) 0)
      sha2Extend fuel (ws ++ [w])

/-- One SHA-256 round. -/
def sha2Round (s : Sha2State) (wk : Nat × Nat) : Sha2State :=
  let t1 := u32 (s.h + bsig1 s.e + sha2Ch s.e s.f s.g + wk.2 + wk.1)
  let t2 := u32 (bsig0 s.a + sha2Maj s.a s.b s.c)
  ⟨u32 (t1 + t2), s.a, s.b, s.c, u32 (s.d + t1), s.e, s.f, s.g⟩

/-- SHA-256 compression of one 16-word block into the running hash. -/
def sha2Compress (H : Sha2State) (block : List Nat) : Sha2State :=
  let ws := sha2Extend 48 block
  let s := (ws.zip sha2K).foldl sha2Round H
  ⟨u32 (H.a + s.a), u32 (H.b + s.b), u32 (H.c + s.c), u32 (H.d + s.d),
   u32 (H.e + s.e), u32 (H.f + s.f), u32 (H.g + s.g), u32 (H.h + s.h)⟩

/-- Big-endian bytes of a 32-bit word. -/
def bytesOfWord (w : Nat) : List Nat :=
  [(w >>> 24) % 256, (w >>> 16) % 256, (w >>> 8) % 256, w % 256]

/-- SHA-256 digest (32 bytes) of a byte list. -/
def sha256Bytes (msg : List Nat) : List Nat :=
  let ws := sha2Words (sha2Pad msg)
  let H := (sha2Blocks (ws.length / 16 + 1) ws).foldl sha2Compress sha2H0
  bytesOfWord H.a ++ bytesOfWord H.b ++ bytesOfWord H.c ++ bytesOfWord H.d ++
  bytesOfWord H.e ++ bytesOfWord H.f ++ bytesOfWord H.g ++ bytesOfWord H.h

/-- Lowercase hexadecimal digit for a value below 16. -/
def hexDigit (n : Nat) : Char := "0123456789abcdef".toList.getD n '0'

/-- Lowercase hexadecimal encoding of a byte list (two digits per byte),
modelling `hashlib`'s `hexdigest`. -/
def hexEncode : List Nat → List Char
  | [] => []
  | b :: bs => hexDigit (b / 16 % 16) :: hexDigit (b % 16) :: hexEncode bs

/-- UTF-8 bytes of a string, modelling Python's `str.encode('utf-8')`. -/
def utf8Bytes (s : String) : List Nat := s.toUTF8.toList.map (·.toNat)

/-- Hex digest of the SHA-256 hash of a string's UTF-8 bytes, modelling
`hashlib.sha256(text.encode('utf-8')).hexdigest()`. -/
def sha256Hex (s : String) : String := ⟨hexEncode (sha256Bytes (utf8Bytes s))⟩

/-- Whitespace recognized by Python's `str.strip()` on the characters the
system handles (the ASCII whitespace set; the rare Unicode space characters
Python also strips never occur in the code paths under claim). -/
def isPyWs (c : Char) : Bool :=
  c = ' ' || c = '\t' || c = '\n' || c = '\r' || c = '\x0b' || c = '\x0c'

/-- Python `str.strip()` on a character list. -/
def pyStripList (cs : List Char) : List Char :=
  ((cs.dropWhile isPyWs).reverse.dropWhile isPyWs).reverse

/-- Python `str.strip()`. -/
def pyStrip (s : String) : String := ⟨pyStripList s.toList⟩

/-- Splitting scan for Python's `str.split(sep)` with nonempty `sep`:
left-to-right, non-overlapping; `cur` accumulates the current piece in
reverse.  Each fuel step consumes at least one character, so input length
plus one is always sufficient fuel. -/
def splitGo (sep : List Char) : Nat → List Char → List Char → List (List Char)
  | _, [], cur => [cur.reverse]
  | 0, cs, cur => [cur.reverse ++ cs]
  | fuel + 1, c :: rest, cur =>
    if sep.isPrefixOf (c :: rest) then
      cur.reverse :: splitGo sep fuel ((c :: rest).drop sep.length) []
    else splitGo sep fuel rest (c :: cur)

/-- Python `str.split(sep)` for a nonempty separator. -/
def pySplit (s sep : String) : List String :=
  (splitGo sep.toList (s.toList.length + 1) s.toList []).map (fun l => ⟨l⟩)

/-- Python's `pat in s` substring test (`pat` nonempty at every call site). -/
def strContains (s pat : String) : Bool := (pySplit s pat).length != 1

/-- Python `str.startswith` for a single pattern. -/
def pyStartsWith (s pat : String) : Bool := pat.toList.isPrefixOf s.toList

/-- Python `str.endswith` for a single pattern. -/
def pyEndsWith (s pat : String) : Bool := pat.toList.isSuffixOf s.toList

/-- Index of the first occurrence of a character, starting the count at `i`. -/
def idxOfAux (c : Char) : List Char → Nat → Option Nat
  | [], _ => none
  | x :: xs, i => if x = c then some i else idxOfAux c xs (i + 1)

/-- Python `str.find` for a single character (`none` models `-1`). -/
def charIdxOf (s : String) (c : Char) : Option Nat := idxOfAux c s.toList 0

/-- Python `str.rfind` for a single character (`none` models `-1`). -/
def charLastIdxOf (s : String) (c : Char) : Option Nat :=
  (idxOfAux c s.toList.reverse 0).map (fun i => s.toList.length - 1 - i)

/-- Python slice `s[a:b]` for nonnegative bounds. -/
def pySlice (s : String) (a b : Nat) : String := ⟨(s.toList.drop a).take (b - a)⟩

/-- Values produced by Python's `json.loads`.  Integer literals become
arbitrary-precision `Int` exactly as in Python; float literals are kept as
their lexeme (claims never depend on float arithmetic or float
re-formatting, so `str()` of a float is modelled by its lexeme). -/
inductive Json where
  | null : Json
  | bool (b : Bool) : Json
  | jint (n : Int) : Json
  | jfloat (lex : String) : Json
  | str (s : String) : Json
  | arr (elems : List Json) : Json
  | obj (kvs : List (String × Json)) : Json

/-- Python `dict.get(k)` on the association list built by the parser
(keys are unique by construction, first match is the binding). -/
def pyGet (kvs : List (String × Json)) (k : String) : Option Json :=
  (kvs.find? (fun kv => kv.1 = k)).map (·.2)

/-- Python `k in dict`. -/
def hasKey (kvs : List (String × Json)) (k : String) : Bool :=
  kvs.any (fun kv => kv.1 = k)

/-- Python dict insertion: an existing key keeps its position and gets the
new value, a new key is appended. -/
def insertKey (kvs : List (String × Json)) (k : String) (v : Json) :
    List (String × Json) :=
  if hasKey kvs k then kvs.map (fun kv => if kv.1 = k then (k, v) else kv)
  else kvs ++ [(k, v)]

/-- Four lowercase hex digits of a value below 65536. -/
def hex4 (n : Nat) : List Char :=
  [hexDigit (n / 4096 % 16), hexDigit (n / 256 % 16),
   hexDigit (n / 16 % 16), hexDigit (n % 16)]

/-- Escape one character as Python's `json.dumps` with `ensure_ascii=True`
does inside string literals. -/
def jsonEscapeChar (c : Char) : List Char :=
  if c = '"' then ['\\', '"']
  else if c = '\\' then ['\\', '\\']
  else if c = '\n' then ['\\', 'n']
  else if c = '\r' then ['\\', 'r']
  else if c = '\t' then ['\\', 't']
  else if c = '\x08' then ['\\', 'b']
  else if c = '\x0c' then ['\\', 'f']
  else if c.toNat < 32 then '\\' :: 'u' :: hex4 c.toNat
  else if c.toNat < 128 then [c]
  else if c.toNat < 65536 then '\\' :: 'u' :: hex4 c.toNat
  else
    let v := c.toNat - 65536
    ('\\' :: 'u' :: hex4 (55296 + v / 1024)) ++
    ('\\' :: 'u' :: hex4 (56320 + v % 1024))

/-- JSON string literal serialization (`ensure_ascii=True`). -/
def jsonQuote (s : String) : String :=
  ⟨'"' :: (s.toList.map jsonEscapeChar).flatten ++ ['"']⟩

/-- Insertion into a key-sorted association list of already-serialized
object members (Python's `sort_keys=True` sorts by the `<` string order). -/
def insertSortedPiece (p : String × String) :
    List (String × String) → List (String × String)
  | [] => [p]
  | q :: qs => if p.1 < q.1 then p :: q :: qs else q :: insertSortedPiece p qs

/-- Insertion sort of serialized object members by key. -/
def sortPieces : List (String × String) → List (String × String)
  | [] => []
  | p :: ps => insertSortedPiece p (sortPieces ps)

/-- Indentation prefix used by `json.dumps(indent=n)` at a nesting level. -/
def dumpsPad (indent : Option Nat) (level : Nat) : String :=
  match indent with
  | none => ""
  | some n => ⟨'\n' :: List.replicate (n * level) ' '⟩

/-- Member separator of `json.dumps`: `", "` without indent, `","` plus a
newline and padding with indent. -/
def dumpsComma (indent : Option Nat) (level : Nat) : String :=
  match indent with
  | none => ", "
  | some _ => "," ++ dumpsPad indent level

mutual

/-- Serialization of one value, modelling `json.dumps` with optional
`sort_keys` and `indent` (default separators, `ensure_ascii=True`). -/
def dumpsVal (sk : Bool) (indent : Option Nat) (level : Nat) : Json → String
  | .null => "null"
  | .bool true => "true"
  | .bool false => "false"
  | .jint n => toString n
  | .jfloat lex => lex
  | .str s => jsonQuote s
  | .arr xs =>
      let pieces := dumpsList sk indent (level + 1) xs
      if pieces.isEmpty then "[]"
      else "[" ++ dumpsPad indent (level + 1) ++
           String.intercalate (dumpsComma indent (level + 1)) pieces ++
           dumpsPad indent level ++ "]"
  | .obj kvs =>
      let pieces := dumpsKvs sk indent (level + 1) kvs
      let pieces := if sk then sortPieces pieces else pieces
      if pieces.isEmpty then "\x7b\x7d"
      else "\x7b" ++ dumpsPad indent (level + 1) ++
           String.intercalate (dumpsComma indent (level + 1))
             (pieces.map (fun p => jsonQuote p.1 ++ ": " ++ p.2)) ++
           dumpsPad indent level ++ "\x7d"

/-- Serialization of array elements. -/
def dumpsList (sk : Bool) (indent : Option Nat) (level : Nat) :
    List Json → List String
  | [] => []
  | x :: xs => dumpsVal sk indent level x :: dumpsList sk indent level xs

/-- Serialization of object members as (key, serialized value) pairs;
sorting the pairs afterwards matches Python serializing in sorted key
order, since members are serialized independently. -/
def dumpsKvs (sk : Bool) (indent : Option Nat) (level : Nat) :
    List (String × Json) → List (String × String)
  | [] => []
  | kv :: kvs => (kv.1, dumpsVal sk indent level kv.2) :: dumpsKvs sk indent level kvs

end

/-- Top-level `json.dumps`. -/
def jsonDumps (sortKeys : Bool) (indent : Option Nat) (v : Json) : String :=
  dumpsVal sortKeys indent 0 v

/-- Whitespace skipped by the JSON grammar (`json.loads`). -/
def jsonSkipWs (cs : List Char) : List Char :=
  cs.dropWhile (fun c => c = ' ' || c = '\t' || c = '\n' || c = '\r')

/-- Value of one hexadecimal digit character. -/
def hexVal (c : Char) : Option Nat :=
  if '0' ≤ c ∧ c ≤ '9' then some (c.toNat - 48)
  else if 'a' ≤ c ∧ c ≤ 'f' then some (c.toNat - 87)
  else if 'A' ≤ c ∧ c ≤ 'F' then some (c.toNat - 55)
  else none

/-- Four hex digits of a `\uXXXX` escape. -/
def parseHex4 : List Char → Option (Nat × List Char)
  | a :: b :: c :: d :: rest =>
    match hexVal a, hexVal b, hexVal c, hexVal d with
    | some x, some y, some z, some w => some (x * 4096 + y * 256 + z * 16 + w, rest)
    | _, _, _, _ => none
  | _ => none

/-- Body of a JSON string literal after the opening quote, per Python's
strict decoder: raw control characters are rejected, the standard escapes
and `\uXXXX` (with surrogate-pair combination) are handled.  A lone
surrogate, which Python keeps as an unpaired code unit, has no Lean `Char`
representation and maps to `Char.ofNat`'s default; no claim exercises it. -/
def parseStringBody : Nat → List Char → Option (List Char × List Char)
  | 0, _ => none
  | _, [] => none
  | fuel + 1, c :: rest =>
    if c = '"' then some ([], rest)
    else if c = '\\' then
      match rest with
      | [] => none
      | e :: rest2 =>
        if e = '"' then (parseStringBody fuel rest2).map (fun p => ('"' :: p.1, p.2))
        else if e = '\\' then (parseStringBody fuel rest2).map (fun p => ('\\' :: p.1, p.2))
        else if e = '/' then (parseStringBody fuel rest2).map (fun p => ('/' :: p.1, p.2))
        else if e = 'b' then (parseStringBody fuel rest2).map (fun p => ('\x08' :: p.1, p.2))
        else if e = 'f' then (parseStringBody fuel rest2).map (fun p => ('\x0c' :: p.1, p.2))
        else if e = 'n' then (parseStringBody fuel rest2).map (fun p => ('\n' :: p.1, p.2))
        else if e = 'r' then (parseStringBody fuel rest2).map (fun p => ('\r' :: p.1, p.2))
        else if e = 't' then (parseStringBody fuel rest2).map (fun p => ('\t' :: p.1, p.2))
        else if e = 'u' then
          match parseHex4 rest2 with
          | none => none
          | some (h1, rest3) =>
            if 55296 ≤ h1 ∧ h1 ≤ 56319 then
              match rest3 with
              | '\\' :: 'u' :: rest4 =>
                match parseHex4 rest4 with
                | some (h2, rest5) =>
                  if 56320 ≤ h2 ∧ h2 ≤ 57343 then
                    (parseStringBody fuel rest5).map
                      (fun p => (Char.ofNat (65536 + (h1 - 55296) * 1024 + (h2 - 56320)) :: p.1, p.2))
                  else (parseStringBody fuel rest3).map (fun p => (Char.ofNat h1 :: p.1, p.2))
                | none => (parseStringBody fuel rest3).map (fun p => (Char.ofNat h1 :: p.1, p.2))
              | _ => (parseStringBody fuel rest3).map (fun p => (Char.ofNat h1 :: p.1, p.2))
            else (parseStringBody fuel rest3).map (fun p => (Char.ofNat h1 :: p.1, p.2))
        else none
    else if c.toNat < 32 then none
    else (parseStringBody fuel rest).map (fun p => (c :: p.1, p.2))

/-- Integer value of a digit run with an optional sign. -/
def intOfDigits (neg : Bool) (ds : List Char) : Int :=
  let n : Nat := ds.foldl (fun acc c => acc * 10 + (c.toNat - 48)) 0
  if neg then -(n : Int) else (n : Int)

/-- JSON number, following Python's number grammar: integer literals
become `jint`, literals with a fraction or exponent become `jfloat`. -/
def parseNumber (cs : List Char) : Option (Json × List Char) :=
  let (neg, cs1) := match cs with | '-' :: t => (true, t) | _ => (false, cs)
  match cs1 with
  | [] => none
  | c :: _ =>
    if ¬ c.isDigit then none
    else
      let (ip, rest1) : List Char × List Char :=
        match cs1 with
        | '0' :: t => (['0'], t)
        | _ => cs1.span (fun ch => ch.isDigit)
      let (fp, rest2) : List Char × List Char :=
        match rest1 with
        | '.' :: t =>
          let (ds, r) := t.span (fun ch => ch.isDigit)
          if ds.isEmpty then (([] : List Char), rest1) else ('.' :: ds, r)
        | _ => ([], rest1)
      let (ep, rest3) : List Char × List Char :=
        match rest2 with
        | e :: t =>
          if e = 'e' ∨ e = 'E' then
            let (sgn, t2) :=
              match t with
              | '+' :: u => ((['+'] : List Char), u)
              | '-' :: u => (['-'], u)
              | _ => ([], t)
            let (ds, r) := t2.span (fun ch => ch.isDigit)
            if ds.isEmpty then (([] : List Char), rest2) else (e :: sgn ++ ds, r)
          else ([], rest2)
        | _ => ([], rest2)
      if fp.isEmpty ∧ ep.isEmpty then some (.jint (intOfDigits neg ip), rest3)
      else some (.jfloat ⟨(if neg then ['-'] else []) ++ ip ++ fp ++ ep⟩, rest3)

mutual

/-- Recursive-descent JSON value parser modelling `json.loads`; `fuel`
strictly decreases on every recursive call and every unit of fuel spent
consumes at least one input character, so input length plus one is always
sufficient fuel. -/
def parseValue : Nat → List Char → Option (Json × List Char)
  | 0, _ => none
  | fuel + 1, cs0 =>
    let cs := jsonSkipWs cs0
    match cs with
    | [] => none
    | c :: rest =>
      if c = '\x7b' then parseObjItems fuel rest [] true
      else if c = '[' then parseArrItems fuel rest [] true
      else if c = '"' then
        (parseStringBody (rest.length + 1) rest).map (fun p => (.str ⟨p.1⟩, p.2))
      else if ['t', 'r', 'u', 'e'].isPrefixOf cs then some (.bool true, cs.drop 4)
      else if ['f', 'a', 'l', 's', 'e'].isPrefixOf cs then some (.bool false, cs.drop 5)
      else if ['n', 'u', 'l', 'l'].isPrefixOf cs then some (.null, cs.drop 4)
      else if ['N', 'a', 'N'].isPrefixOf cs then some (.jfloat "nan", cs.drop 3)
      else if ['I', 'n', 'f', 'i', 'n', 'i', 't', 'y'].isPrefixOf cs then
        some (.jfloat "inf", cs.drop 8)
      else if ['-', 'I', 'n', 'f', 'i', 'n', 'i', 't', 'y'].isPrefixOf cs then
        some (.jfloat "-inf", cs.drop 9)
      else if c = '-' ∨ c.isDigit then parseNumber cs
      else none

/-- Array elements after `[`; `isFirst` permits the empty array. -/
def parseArrItems : Nat → List Char → List Json → Bool → Option (Json × List Char)
  | 0, _, _, _ => none
  | fuel + 1, cs0, acc, isFirst =>
    let cs := jsonSkipWs cs0
    match cs with
    | ']' :: rest => if isFirst then some (.arr acc.reverse, rest) else none
    | _ =>
      match parseValue fuel cs with
      | none => none
      | some (v, rest) =>
        match jsonSkipWs rest with
        | ',' :: rest2 => parseArrItems fuel rest2 (v :: acc) false
        | ']' :: rest2 => some (.arr (v :: acc).reverse, rest2)
        | _ => none

/-- Object members after the opening brace; `isFirst` permits the empty
object, duplicate keys follow Python dict insertion (last value wins). -/
def parseObjItems : Nat → List Char → List (String × Json) → Bool →
    Option (Json × List Char)
  | 0, _, _, _ => none
  | fuel + 1, cs0, acc, isFirst =>
    let cs := jsonSkipWs cs0
    match cs with
    | '\x7d' :: rest => if isFirst then some (.obj acc, rest) else none
    | '"' :: rest =>
      match parseStringBody (rest.length + 1) rest with
      | none => none
      | some (kcs, rest1) =>
        match jsonSkipWs rest1 with
        | ':' :: rest2 =>
          match parseValue fuel rest2 with
          | none => none
          | some (v, rest3) =>
            let acc2 := insertKey acc ⟨kcs⟩ v
            match jsonSkipWs rest3 with
            | ',' :: rest4 => parseObjItems fuel rest4 acc2 false
            | '\x7d' :: rest4 => some (.obj acc2, rest4)
            | _ => none
        | _ => none
    | _ => none

end

/-- Python's `json.loads`: parse one value, then require only whitespace to
remain; `none` models `json.JSONDecodeError`. -/
def jsonLoads (s : String) : Option Json :=
  let cs := s.toList
  match parseValue (cs.length + 1) cs with
  | some (v, rest) => if (jsonSkipWs rest).isEmpty then some v else none
  | none => none

/-- Modelled from the spec: the input items of a request (the pydantic
module `src/models/models.py` is imported by the code but is not under
`src/`).  A `PyItem` is any Python object appearing in the `inputs` list of
`generate_task_hash`: per the duck-typed access in `task_hash.py`, the
`user_query` attribute may be absent (`none`), the `notebook` attribute may
be absent or `None` (both `none`), and `str_repr` is the object's `str()`
rendering used by the fallback branch. -/
structure PyItem where
  user_query : Option String
  notebook : Option String
  str_repr : String

/-- Query string contributed by one input item:
`item.user_query.strip() if hasattr(item, 'user_query') else str(item).strip()`. -/
def itemQuery (it : PyItem) : String :=
  match it.user_query with
  | some q => pyStrip q
  | none => pyStrip it.str_repr

/-- Notebook string contributed by one input item:
`item.notebook.strip() if hasattr(item, 'notebook') and item.notebook else ""`
(the truthiness test sends the empty string, like an absent attribute, to `""`). -/
def itemNotebook (it : PyItem) : String :=
  match it.notebook with
  | some nb => if nb = "" then "" else pyStrip nb
  | none => ""

/-- Canonical structure `task_data` built by `generate_task_hash`
(`src/utils/task_hash.py`, lines 23–32). -/
def taskCanonical (task : String) (inputs : List PyItem) : Json :=
  .obj [("task", .str (pyStrip task)),
        ("inputs", .arr (inputs.map (fun it =>
          .obj [("user_query", .str (itemQuery it)),
                ("notebook", .str (itemNotebook it))])))]

/-- Task fingerprint (`generate_task_hash` in `src/utils/task_hash.py`):
serialize the canonical structure with `json.dumps(..., sort_keys=True,
ensure_ascii=True)` and return the SHA-256 hex digest of its UTF-8 bytes. -/
def generate_task_hash (task : String) (inputs : List PyItem) : String :=
  sha256Hex (jsonDumps true none (taskCanonical task inputs))

/-- Escape one character as Python's `repr` of a string does inside
single quotes (the common case; `repr` switches to double quotes only for
strings containing `'` but no `"`, which no claim exercises). -/
def pyReprEscapeChar (c : Char) : List Char :=
  if c = '\\' then ['\\', '\\']
  else if c = '\'' then ['\\', '\'']
  else if c = '\n' then ['\\', 'n']
  else if c = '\r' then ['\\', 'r']
  else if c = '\t' then ['\\', 't']
  else if c.toNat < 32 then '\\' :: 'x' :: [hexDigit (c.toNat / 16 % 16), hexDigit (c.toNat % 16)]
  else [c]

/-- Python `repr` of a string. -/
def pyQuoteRepr (s : String) : String :=
  ⟨'\'' :: (s.toList.map pyReprEscapeChar).flatten ++ ['\'']⟩

mutual

/-- Python `repr` of a value produced by `json.loads` (dicts and lists
print their elements with `repr`). -/
def pyRepr : Json → String
  | .null => "None"
  | .bool true => "True"
  | .bool false => "False"
  | .jint n => toString n
  | .jfloat lex => lex
  | .str s => pyQuoteRepr s
  | .arr xs => "[" ++ String.intercalate ", " (pyReprList xs) ++ "]"
  | .obj kvs => "\x7b" ++ String.intercalate ", " (pyReprKvs kvs) ++ "\x7d"

/-- Representations of the elements of a list. -/
def pyReprList : List Json → List String
  | [] => []
  | x :: xs => pyRepr x :: pyReprList xs

/-- Representations of the members of a dict (`repr(key): repr(value)`). -/
def pyReprKvs : List (String × Json) → List String
  | [] => []
  | kv :: kvs => (pyQuoteRepr kv.1 ++ ": " ++ pyRepr kv.2) :: pyReprKvs kvs

end

/-- Python `str()` of a value produced by `json.loads`: the identity on
strings, `repr`-like rendering otherwise. -/
def pyStr (v : Json) : String :=
  match v with
  | .str s => s
  | _ => pyRepr v

/-- Fuel for `extract_notebook_content`: each unwrap of a JSON-encoded
string strictly shrinks the string (the quotes go away), so string length
plus one bounds the recursion depth. -/
def notebookFuel : Json → Nat
  | .str s => s.length + 1
  | _ => 1

/-- Notebook normalization (`_extract_notebook_content` in
`src/services/components.py`, lines 82–129): a dict keeps its `content`
field (joining a list of parts with blank lines) or is re-serialized with
`json.dumps(indent=2)`; a string that looks like a JSON object or array is
parsed and recursively extracted (kept as-is if parsing fails); a list is
joined with blank lines; anything else is `str()`-rendered.  The source's
`elif "title" in ... and "content" in ...` branch is unreachable (the first
branch already covers every dict with a `content` key) and is omitted. -/
def extract_notebook_content : Nat → Json → String
  | _, .obj kvs =>
    match pyGet kvs "content" with
    | some (.arr items) => String.intercalate "\n\n" (items.map pyStr)
    | some content => pyStr content
    | none => jsonDumps false (some 2) (.obj kvs)
  | fuel, .str s =>
    let st := pyStrip s
    if (pyStartsWith st "\x7b" || pyStartsWith st "[") &&
       (pyEndsWith st "\x7d" || pyEndsWith st "]") then
      match jsonLoads s with
      | some parsed =>
        match fuel with
        | 0 => s
        | f + 1 => extract_notebook_content f parsed
      | none => s
    else s
  | _, .arr items => String.intercalate "\n\n" (items.map pyStr)
  | _, v => pyStr v

/-- Entry point of the notebook normalization with sufficient fuel. -/
def extractNotebook (v : Json) : String :=
  extract_notebook_content (notebookFuel v) v

/-- Uncaught Python exceptions of the extraction layer. -/
inductive PyErr where
  | attributeError : PyErr
deriving DecidableEq

/-- A one-argument Python `dict.get(k)` as the `is not None` guards
observe it: JSON `null` parses to the Python value `None`, which is the
same value `get` returns for an absent key, so a null binding is
indistinguishable from a missing one.  The `Option` here represents a
Python value-or-`None`, with `none` standing for `None`. -/
def pyGetNonNull (kvs : List (String × Json)) (k : String) : Option Json :=
  match pyGet kvs k with
  | some .null => none
  | v => v

/-- Double-encoding probe (`try_parse_json_string` in
`src/services/components.py`, lines 144–163): a string value whose
stripped form starts and ends with braces is parsed; if it yields a dict
with a non-`None` `immediate_response` or `notebook` member, those two
`dict.get` results are returned.  The returned options represent Python
value-or-`None`: a JSON-null member is Python `None` through `dict.get`,
so it counts as absent here and in the caller's `is not None` checks. -/
def try_parse_json_string (value : Json) : Option Json × Option Json :=
  match value with
  | .str s =>
    let st := pyStrip s
    if pyStartsWith st "\x7b" && pyEndsWith st "\x7d" then
      match jsonLoads s with
      | some (.obj kvs) =>
        let ii := pyGetNonNull kvs "immediate_response"
        let inb := pyGetNonNull kvs "notebook"
        if ii.isSome || inb.isSome then (ii, inb) else (none, none)
      | _ => (none, none)
    else (none, none)
  | _ => (none, none)

/-- Field extraction from a successfully parsed dict
(`src/services/components.py`, lines 198–213 and 234–246):
`immediate_response` defaults to the raw response and `notebook` to the
sentinel (the two-argument `result.get(k, default)` substitutes the
default only for an absent key, so an explicit JSON-null value stays — as
`.null`, the model of Python `None`), the double-encoding probe replaces
them only when it found a non-`None` inner `immediate_response`, then the
notebook is normalized.  The probe's options represent Python
value-or-`None`, so matching `some` here is exactly the source's
`is not None` guard. -/
def parseSuccess (response : String) (kvs : List (String × Json)) : Json × String :=
  let immediate0 := (pyGet kvs "immediate_response").getD (.str response)
  let notebook0 := (pyGet kvs "notebook").getD (.str "no update")
  let inner := try_parse_json_string immediate0
  let immediate1 := match inner.1 with | some ii => ii | none => immediate0
  let notebook1 :=
    match inner.1 with
    | some _ => match inner.2 with | some inb => inb | none => notebook0
    | none => notebook0
  (immediate1, extractNotebook notebook1)

/-- Scan of the odd-indexed (inside-fence) parts of `text.split("```")`,
returning the first part that parses as JSON, with a leading `json` tag
dropped (`src/services/components.py`, lines 173–186). -/
def fenceCandidate (parts : List String) : Option String :=
  ((List.range parts.length).filter (fun i => i % 2 = 1)).findSome? (fun i =>
    let t := pyStrip (parts.getD i "")
    let t2 := if pyStartsWith t "json" then pyStrip ⟨t.toList.drop 4⟩ else t
    if (jsonLoads t2).isSome then some t2 else none)

/-- Strategy 1 of `parse_json_response` (lines 169–186): cut out a
` ```json `-labeled fence, else the first fenced block that parses. -/
def applyFenceStrategies (rt : String) : String :=
  if strContains rt "```json" then
    pyStrip ((pySplit ((pySplit rt "```json").getD 1 "") "```").getD 0 "")
  else if strContains rt "```" then
    match fenceCandidate (pySplit rt "```") with
    | some t => t
    | none => rt
  else rt

/-- Strategy 2 of `parse_json_response` (lines 188–194): when the text does
not start with a brace, slice from the first `{` to the last `}` provided
the latter comes later. -/
def applyBraceSlice (rt : String) : String :=
  if pyStartsWith rt "\x7b" then rt
  else
    match charIdxOf rt '\x7b', charLastIdxOf rt '\x7d' with
    | some f, some l => if f < l then pySlice rt f (l + 1) else rt
    | _, _ => rt

/-- Fallback strategy 1 (line 222): slice from `find("{")` to
`rfind("}") + 1` whenever both characters occur, without ordering check
(a backwards slice yields the empty string, which the caller skips). -/
def fallbackSlice (response : String) : Option String :=
  match charIdxOf response '\x7b', charLastIdxOf response '\x7d' with
  | some f, some l => some (pySlice response f (l + 1))
  | _, _ => none

/-- Backward scan of `_find_last_json_object` (lines 259–277) from
position `i` with the running brace depth: `}` increments, `{` decrements
and returns the slice up to `last` when the depth reaches zero. -/
def scanBackAux (cs : List Char) (last : Nat) : Nat → Int → Option String
  | i, depth =>
    let c := cs.getD i ' '
    if c = '\x7d' then
      match i with
      | 0 => none
      | j + 1 => scanBackAux cs last j (depth + 1)
    else if c = '\x7b' then
      if depth - 1 = 0 then some ⟨(cs.drop i).take (last + 1 - i)⟩
      else
        match i with
        | 0 => none
        | j + 1 => scanBackAux cs last j (depth - 1)
    else
      match i with
      | 0 => none
      | j + 1 => scanBackAux cs last j depth

/-- Last complete brace-balanced object in the text
(`_find_last_json_object`): scan backwards from the last `}`. -/
def find_last_json_object (text : String) : Option String :=
  match charLastIdxOf text '\x7d' with
  | none => none
  | some last => scanBackAux text.toList last last 0

/-- Forward scan of `_find_first_json_object` (lines 280–298): length of
the prefix ending at the brace that closes the initial `{`. -/
def scanFwdAux : List Char → Int → Option Nat
  | [], _ => none
  | c :: rest, depth =>
    let d : Int := if c = '\x7b' then depth + 1 else if c = '\x7d' then depth - 1 else depth
    if c = '\x7d' ∧ d = 0 then some 1
    else (scanFwdAux rest d).map (· + 1)

/-- First complete brace-balanced object in the text
(`_find_first_json_object`): scan forward from the first `{`. -/
def find_first_json_object (text : String) : Option String :=
  match charIdxOf text '\x7b' with
  | none => none
  | some first =>
    (scanFwdAux (text.toList.drop first) 0).map
      (fun len => ⟨(text.toList.drop first).take len⟩)

/-- One round of the fallback loop (lines 229–252): skip an absent or
empty candidate (`if json_text:`); parse failure raises
`json.JSONDecodeError` and a non-dict result makes `result.get` raise
`AttributeError`, both caught by the blanket `except Exception`, continuing
with the next strategy. -/
def oneFallback (response : String) (cand : Option String) : Option (Json × String) :=
  match cand with
  | none => none
  | some t =>
    if t = "" then none
    else
      match jsonLoads t with
      | some (.obj kvs) => some (parseSuccess response kvs)
      | some _ => none
      | none => none

/-- Layered extractor (`parse_json_response` in
`src/services/components.py`, lines 132–256).  The main path catches only
`json.JSONDecodeError`, `IndexError` and `ValueError`, so `result.get` on a
JSON value that is not an object raises an uncaught `AttributeError`,
modelled by `Except.error`.  When the main parse fails, the three fallback
strategies run over the original raw response; when all fail, the raw text
and the sentinel are returned. -/
def parse_json_response (response : String) : Except PyErr (Json × String) :=
  let rt0 := pyStrip response
  let rt1 := applyFenceStrategies rt0
  let rt2 := applyBraceSlice rt1
  match jsonLoads rt2 with
  | some (.obj kvs) => .ok (parseSuccess response kvs)
  | some _ => .error .attributeError
  | none =>
    match oneFallback response (fallbackSlice response) with
    | some r => .ok r
    | none =>
      match oneFallback response (find_last_json_object response) with
      | some r => .ok r
      | none =>
        match oneFallback response (find_first_json_object response) with
        | some r => .ok r
        | none => .ok (.str response, "no update")

/-- Modelled from the spec: the `{reply, artifact}` output data of an
earlier component result (`ComponentOutputData` of the missing
`src/models/models.py`); per the data model both fields are strings. -/
structure ComponentOutputData where
  immediate_response : String
  notebook : String

/-- Modelled from the spec: a read-only prior output in the task chain
(`PreviousOutput` of the missing `src/models/models.py`): source component
name, task text and output data. -/
structure PreviousOutput where
  component : String
  task : String
  output : ComponentOutputData

/-- Modelled from the spec: a request (`ComponentInput` of the missing
`src/models/models.py`) restricted to the fields the coordination flow
reads: conversation id, task text, input items and the prior-output chain. -/
structure ComponentInput where
  cid : String
  task : String
  input : List PyItem
  previous_outputs : List PreviousOutput

/-- Condition of the carry-forward loop
(`prev.output.notebook and prev.output.notebook != "no update"`): the prior
notebook is truthy (nonempty) and not the sentinel. -/
def goodNotebook (p : PreviousOutput) : Bool :=
  p.output.notebook != "" && p.output.notebook != "no update"

/-- Sentinel resolution applied after extraction
(`src/services/components.py`, lines 432–443): when the extracted notebook
is the sentinel and the prior chain is nonempty, the first prior output
with a truthy non-sentinel notebook replaces it; otherwise the value is
unchanged. -/
def resolve_no_update (nb : String) (prevs : List PreviousOutput) : String :=
  if nb == "no update" && !prevs.isEmpty then
    match prevs.find? goodNotebook with
    | some p => p.output.notebook
    | none => nb
  else nb

/-- Environment of one Redis call sequence (`RedisService` in
`src/services/redis_service.py`): whether `self.client` is set, whether the
underlying `setex` network call raises (store unreachable), and the outcome
of the underlying `get` network call — an exception, a missing/expired key
(`nil`), or the stored string. -/
structure RedisEnv where
  clientPresent : Bool
  setexRaises : Bool
  getResult : Except Unit (Option String)

/-- Redis key for a task solution (`_get_solution_key`). -/
def get_solution_key (task_hash : String) : String := "solution:" ++ task_hash

/-- Solution publication (`store_solution`, lines 79–120): without a client
return `False`; otherwise spread the solution dict, add the `stored_at`
timestamp (`now`) and the `task_hash`, serialize, and `setex` under the
namespaced key with the given TTL; a raising call is caught by the blanket
`except` and yields `False`.  The written payload and TTL only affect the
external store, so the model returns the success boolean. -/
def store_solution (env : RedisEnv) (task_hash : String)
    (solution : List (String × Json)) (now : String) (ttl : Nat) : Bool :=
  if ¬ env.clientPresent then false
  else
    let key := get_solution_key task_hash
    let solution_data :=
      insertKey (insertKey solution "stored_at" (.str now)) "task_hash" (.str task_hash)
    let payload := jsonDumps false none (.obj solution_data)
    -- the `setex(key, ttl, payload)` call with the serialized payload
    -- either succeeds or raises; its data only reaches the external store
    if env.setexRaises then false else true

/-- Solution lookup (`get_solution`, lines 122–150): without a client
return `None`; a raising `get` is caught by the blanket `except` and yields
`None`; a missing or expired key yields `None` (the empty string is also
falsy under `if data:`); otherwise the stored string is `json.loads`-parsed
and returned, a parse failure again being caught to `None`.  A stored
literal `"null"` parses to the Python value `None` — the very value the
miss paths return — so it maps to `none` here as well. -/
def get_solution (env : RedisEnv) (task_hash : String) : Option Json :=
  if ¬ env.clientPresent then none
  else
    match env.getResult with
    | .error _ => none
    | .ok none => none
    | .ok (some data) =>
      if data = "" then none
      else
        match jsonLoads data with
        | some .null => none
        | some v => some v
        | none => none

/-- Poll loop of `wait_for_solution` (lines 176–191) under an idealized
clock: each `get_solution` call is instantaneous and each sleep advances
time by `poll_interval`, so the `k`-th poll happens at elapsed time
`k * poll_interval`; `getAt k` is the result of the `k`-th poll.  Each
iteration first polls, then returns `None` once the elapsed time has
reached the timeout, else sleeps and repeats.  The second component counts
the polls performed.  The source's `if solution:` truthiness test is
modelled by the presence of a payload: `get_solution` already returns
`none` for every miss (including a stored JSON null), so the two differ
only on a stored falsy non-null payload such as `{}` or `0`, which the
producer never writes and which no claim exercises. -/
def wait_go (getAt : Nat → Option Json) (timeout poll_interval : ℚ) :
    Nat → Nat → Option Json × Nat
  | 0, k => (none, k)
  | fuel + 1, k =>
    match getAt k with
    | some sol => (some sol, k + 1)
    | none =>
      if timeout ≤ (k : ℚ) * poll_interval then (none, k + 1)
      else wait_go getAt timeout poll_interval fuel (k + 1)

/-- Blocking wait (`wait_for_solution`, lines 152–191): without a client
return `None` immediately (zero polls); otherwise run the poll loop.  The
loop stops at the first poll index `k` with `k * poll_interval ≥ timeout`,
i.e. at `k = ⌈timeout / poll_interval⌉`, so the chosen fuel covers every
reachable iteration whenever `poll_interval > 0`. -/
def wait_for_solution (clientPresent : Bool) (getAt : Nat → Option Json)
    (timeout poll_interval : ℚ) : Option Json × Nat :=
  if clientPresent then
    wait_go getAt timeout poll_interval (Nat.ceil (timeout / poll_interval) + 1) 0
  else (none, 0)

/-- Observable actions of one `component_complete` run: waiting on the
store under a key, invoking the LLM generator, publishing to the store
under a key with a payload. -/
inductive MinerAction where
  | waitSolution (key : String) : MinerAction
  | callGenerator : MinerAction
  | storeSolution (key : String) (payload : List (String × Json)) : MinerAction

/-- Test for a wait action. -/
def MinerAction.isWait : MinerAction → Bool
  | .waitSolution _ => true
  | _ => false

/-- Test for a generator invocation. -/
def MinerAction.isCallGen : MinerAction → Bool
  | .callGenerator => true
  | _ => false

/-- Environment of one `component_complete` request
(`src/services/components.py`, lines 303–483): the node role
(`settings.miner_type`), whether `get_redis_service()` returned a service
with a live client, what `wait_for_solution` would return for this request
(`none` models both timeout and an empty store), and the raw text the LLM
generator returns. -/
structure CompleteEnv where
  miner_type : String
  redisAvailable : Bool
  waitResult : Option Json
  llmResponse : String

/-- Result record of `component_complete` (the `output` field of the
returned `ComponentOutput`).  Fields are `Json` because the extractor can
hand back a non-string `immediate_response` and the child path returns the
stored payload's fields as parsed. -/
structure CompleteOutput where
  immediate_response : Json
  notebook : Json

/-- Local generation tail of `component_complete` (lines 365–483,
specialized to its extraction/resolution/publication steps; the prompt
assembly and conversation-history writes only affect external
collaborators): invoke the generator, extract, resolve the sentinel
against the prior chain, and, for a parent with a live client, publish the
result under the task hash.  An uncaught extractor exception propagates. -/
def completeLocalTail (env : CompleteEnv) (ci : ComponentInput)
    (pre : List MinerAction) : Except PyErr CompleteOutput × List MinerAction :=
  let task_hash := generate_task_hash ci.task ci.input
  match parse_json_response env.llmResponse with
  | .error e => (.error e, pre ++ [.callGenerator])
  | .ok (imm, nb) =>
    let resolved := resolve_no_update nb ci.previous_outputs
    if env.miner_type = "parent" ∧ env.redisAvailable then
      (.ok ⟨imm, .str resolved⟩,
       pre ++ [.callGenerator,
               .storeSolution (get_solution_key task_hash)
                 [("immediate_response", imm), ("notebook", .str resolved)]])
    else (.ok ⟨imm, .str resolved⟩, pre ++ [.callGenerator])

/-- Per-request coordination flow (`component_complete`, lines 303–483):
compute the task hash; a child with a live client waits on the store and
returns a found payload's fields verbatim (with `.get` defaults), falling
through to local generation on timeout; a child without a client falls
through directly; parent and normal nodes generate locally, the parent
additionally publishing.  A found payload that is not a dict makes
`solution.get` raise an uncaught `AttributeError`. -/
def component_complete (env : CompleteEnv) (ci : ComponentInput) :
    Except PyErr CompleteOutput × List MinerAction :=
  let task_hash := generate_task_hash ci.task ci.input
  if env.miner_type = "child" ∧ env.redisAvailable then
    match env.waitResult with
    | some (.obj sol) =>
      (.ok ⟨(pyGet sol "immediate_response").getD (.str ""),
            (pyGet sol "notebook").getD (.str "no update")⟩,
       [.waitSolution (get_solution_key task_hash)])
    | some _ => (.error .attributeError, [.waitSolution (get_solution_key task_hash)])
    | none => completeLocalTail env ci [.waitSolution (get_solution_key task_hash)]
  else completeLocalTail env ci []

/-- Local result of a solo (`normal`) node for the same request: generate,
extract, resolve.  Used to state that fallback behaves as solo. -/
def solo_complete (env : CompleteEnv) (ci : ComponentInput) : Except PyErr CompleteOutput :=
  match parse_json_response env.llmResponse with
  | .error e => .error e
  | .ok (imm, nb) => .ok ⟨imm, .str (resolve_no_update nb ci.previous_outputs)⟩

/-- Wait/store key used by the coordination flow for a request
(`src/services/components.py`, line 329). -/
def taskHashOf (ci : ComponentInput) : String :=
  generate_task_hash ci.task ci.input

/- Helper lemmas about the digest format. -/

/-- Hex digits of values below 16 are lowercase hexadecimal characters. -/
lemma hexDigit_mem_hex : ∀ n < 16, hexDigit n ∈ "0123456789abcdef".toList := by
  decide

/-- Hex encoding doubles the length. -/
lemma hexEncode_length (bs : List Nat) : (hexEncode bs).length = 2 * bs.length := by
  induction bs with
  | nil => rfl
  | cons b bs ih => simp [hexEncode, ih]; ring

/-- Every character of a hex encoding is a lowercase hexadecimal digit. -/
lemma hexEncode_mem (bs : List Nat) : ∀ c ∈ hexEncode bs, c ∈ "0123456789abcdef".toList := by
  induction bs with
  | nil => intro c hc; cases hc
  | cons b bs ih =>
    intro c hc
    rcases hc with _ | ⟨_, hc⟩
    · exact hexDigit_mem_hex _ (Nat.mod_lt _ (by norm_num))
    · rcases hc with _ | ⟨_, hc⟩
      · exact hexDigit_mem_hex _ (Nat.mod_lt _ (by norm_num))
      · exact ih c hc

/-- A SHA-256 digest consists of 32 bytes. -/
lemma sha256Bytes_length (msg : List Nat) : (sha256Bytes msg).length = 32 := by
  simp [sha256Bytes, bytesOfWord]

/-- The hex digest of any string has 64 characters. -/
lemma sha256Hex_length (s : String) : (sha256Hex s).length = 64 := by
  show (hexEncode (sha256Bytes (utf8Bytes s))).length = 64
  rw [hexEncode_length, sha256Bytes_length]

/-- The hex digest of any string uses only lowercase hexadecimal digits. -/
lemma sha256Hex_mem (s : String) :
    ∀ c ∈ (sha256Hex s).toList, c ∈ "0123456789abcdef".toList := by
  intro c hc
  exact hexEncode_mem _ c hc

/-- The fingerprint is a 64-character lowercase-hex string for every input. -/
lemma generate_task_hash_format (task : String) (inputs : List PyItem) :
    (generate_task_hash task inputs).length = 64 ∧
    ∀ c ∈ (generate_task_hash task inputs).toList, c ∈ "0123456789abcdef".toList :=
  ⟨sha256Hex_length _, sha256Hex_mem _⟩

/-- The fingerprint depends only on the stripped task and on the per-item
canonical query/notebook strings. -/
lemma generate_task_hash_congr (t1 t2 : String) (ins1 ins2 : List PyItem)
    (ht : pyStrip t1 = pyStrip t2)
    (hin : List.Forall₂
      (fun a b => itemQuery a = itemQuery b ∧ itemNotebook a = itemNotebook b)
      ins1 ins2) :
    generate_task_hash t1 ins1 = generate_task_hash t2 ins2 := by
  have hmap : ins1.map (fun it => Json.obj
        [("user_query", .str (itemQuery it)), ("notebook", .str (itemNotebook it))]) =
      ins2.map (fun it => Json.obj
        [("user_query", .str (itemQuery it)), ("notebook", .str (itemNotebook it))]) := by
    induction hin with
    | nil => rfl
    | cons h _ ih => simp [h.1, h.2, ih]
  unfold generate_task_hash taskCanonical
  rw [ht, hmap]

/-- C2: fingerprint computation is a pure deterministic function: two
computations on inputs that agree up to leading/trailing whitespace of the
task, of any input's query, or of any input's artifact yield identical
digests, and every digest is a 64-character lowercase hexadecimal string. -/
theorem C2_fingerprint_deterministic (t1 t2 : String) (ins1 ins2 : List PyItem)
    (ht : pyStrip t1 = pyStrip t2)
    (hin : List.Forall₂
      (fun a b => itemQuery a = itemQuery b ∧ itemNotebook a = itemNotebook b)
      ins1 ins2) :
    generate_task_hash t1 ins1 = generate_task_hash t2 ins2 ∧
    (generate_task_hash t1 ins1).length = 64 ∧
    ∀ c ∈ (generate_task_hash t1 ins1).toList, c ∈ "0123456789abcdef".toList :=
  ⟨generate_task_hash_congr t1 t2 ins1 ins2 ht hin,
   (generate_task_hash_format t1 ins1).1, (generate_task_hash_format t1 ins1).2⟩

/-- Witness for C2 at concrete inputs differing only in whitespace. -/
theorem C2_fingerprint_deterministic_witness :
    generate_task_hash "  draft a plan " [⟨some " q1 ", some " nb ", "r"⟩] =
      generate_task_hash "draft a plan" [⟨some "q1", some "nb", "other"⟩] ∧
    (generate_task_hash "  draft a plan " [⟨some " q1 ", some " nb ", "r"⟩]).length = 64 :=
  have h := C2_fingerprint_deterministic "  draft a plan " "draft a plan"
    [⟨some " q1 ", some " nb ", "r"⟩] [⟨some "q1", some "nb", "other"⟩]
    (by decide) (.cons ⟨by decide, by decide⟩ .nil)
  ⟨h.1, h.2.1⟩

/-- C9 counterexample: an input item lacking the `user_query` attribute
does not make fingerprint computation fail fast; the code falls back to
`str(item)` and returns an ordinary 64-character digest (equal to the
digest obtained with that string as an explicit query). -/
theorem C9_counterexample :
    generate_task_hash "t" [⟨none, none, "some object"⟩] =
      generate_task_hash "t" [⟨some "some object", none, "ignored"⟩] ∧
    (generate_task_hash "t" [⟨none, none, "some object"⟩]).length = 64 :=
  ⟨generate_task_hash_congr _ _ _ _ rfl (.cons ⟨by decide, by decide⟩ .nil),
   (generate_task_hash_format _ _).1⟩

/-- C9 amended: fingerprint computation never fails on an input item
missing the query attribute; it behaves as if that item's query were the
item's `str()` rendering and still returns a 64-character digest. -/
theorem C9_no_fail_fast (t : String) (ins : List PyItem) :
    generate_task_hash t ins =
      generate_task_hash t (ins.map (fun it =>
        { user_query := some (match it.user_query with
                              | some q => q
                              | none => it.str_repr),
          notebook := it.notebook, str_repr := it.str_repr })) ∧
    (generate_task_hash t ins).length = 64 := by
  constructor
  · apply generate_task_hash_congr _ _ _ _ rfl
    induction ins with
    | nil => exact .nil
    | cons a l ih =>
      refine .cons ⟨?_, rfl⟩ ih
      cases h : a.user_query <;> simp [itemQuery, h]
  · exact (generate_task_hash_format t ins).1

/-- C10: the sharing key computed by the coordination flow depends only on
the task text and the input items; two requests with equal task and inputs
but arbitrary different conversation ids and prior-output chains get the
same key. -/
theorem C10_hash_ignores_context (ci1 ci2 : ComponentInput)
    (htask : ci1.task = ci2.task) (hinput : ci1.input = ci2.input) :
    taskHashOf ci1 = taskHashOf ci2 := by
  unfold taskHashOf
  rw [htask, hinput]

/-- Witness for C10: same task and inputs, different cid and chain. -/
theorem C10_hash_ignores_context_witness :
    taskHashOf ⟨"cid-a", "t", [⟨some "q", none, "r"⟩],
        [⟨"complete", "t0", ⟨"r0", "nb0"⟩⟩]⟩ =
      taskHashOf ⟨"cid-b", "t", [⟨some "q", none, "r"⟩], []⟩ :=
  C10_hash_ignores_context _ _ rfl rfl

/-- A first match of `find?` characterized by index: the element at `i`
satisfies the predicate and every earlier element fails it. -/
lemma find?_of_first {α : Type} (p : α → Bool) (l : List α) (i : Nat) (x : α)
    (hx : l[i]? = some x) (hgood : p x = true)
    (hbefore : ∀ j y, j < i → l[j]? = some y → p y = false) :
    l.find? p = some x := by
  induction l generalizing i with
  | nil => simp at hx
  | cons a l ih =>
    cases i with
    | zero =>
      simp at hx
      subst hx
      simp [List.find?, hgood]
    | succ i =>
      have ha : p a = false := hbefore 0 a (Nat.succ_pos _) (by simp)
      simp only [List.find?, ha]
      exact ih i (by simpa using hx) (fun j y hj hy =>
        hbefore (j + 1) y (by omega) (by simpa using hy))

/-- C3 counterexample: with the chain `[artifact "", artifact "PREV"]` the
first non-sentinel artifact is the empty string, but the resolution loop
skips falsy artifacts and resolves to `"PREV"` instead. -/
theorem C3_counterexample :
    resolve_no_update "no update"
        [⟨"c1", "t", ⟨"r1", ""⟩⟩, ⟨"c2", "t", ⟨"r2", "PREV"⟩⟩] = "PREV" ∧
    ("" : String) ≠ "no update" ∧ ("PREV" : String) ≠ "" := by
  refine ⟨?_, by decide, by decide⟩
  rfl

/-- C3 amended: when the extracted artifact is the sentinel, the final
artifact is the artifact of the first prior output in chain order whose
artifact is nonempty and non-sentinel; if no prior output has such an
artifact, the sentinel is kept. -/
theorem C3_carry_forward (prevs : List PreviousOutput) :
    ((∀ q ∈ prevs, goodNotebook q = false) →
        resolve_no_update "no update" prevs = "no update") ∧
    (∀ (i : Nat) (p : PreviousOutput), prevs[i]? = some p → goodNotebook p = true →
        (∀ (j : Nat) (q : PreviousOutput), j < i → prevs[j]? = some q → goodNotebook q = false) →
        resolve_no_update "no update" prevs = p.output.notebook) := by
  constructor
  · intro hall
    unfold resolve_no_update
    cases prevs with
    | nil => rfl
    | cons a l =>
      have hfind : (a :: l).find? goodNotebook = none :=
        List.find?_eq_none.2 (fun x hx => by simp [hall x hx])
      simp [hfind]
  · intro i p hx hgood hbefore
    have hfind := find?_of_first goodNotebook prevs i p hx hgood hbefore
    unfold resolve_no_update
    cases prevs with
    | nil => simp at hx
    | cons a l => simp [hfind]

/-- Witness for C3 at the spec's example chain
`[{artifact:"no update"}, {artifact:"PREV"}]`. -/
theorem C3_carry_forward_witness :
    resolve_no_update "no update"
        [⟨"c1", "t", ⟨"r1", "no update"⟩⟩, ⟨"c2", "t", ⟨"r2", "PREV"⟩⟩] = "PREV" := by
  refine (C3_carry_forward _).2 1 ⟨"c2", "t", ⟨"r2", "PREV"⟩⟩ rfl (by decide) ?_
  intro j q hj hq
  have hj0 : j = 0 := by omega
  subst hj0
  simp at hq
  subst hq
  decide

/-- C7: the store degrades instead of raising: `store_solution` returns
`False` when the client is absent or the write raises, and `get_solution`
returns `None` when the client is absent, the read raises, or the key is
missing or expired. -/
theorem C7_store_never_raises (env : RedisEnv) (th now : String)
    (sol : List (String × Json)) (ttl : Nat) :
    (env.clientPresent = false → store_solution env th sol now ttl = false) ∧
    (env.setexRaises = true → store_solution env th sol now ttl = false) ∧
    (env.clientPresent = false → get_solution env th = none) ∧
    (env.getResult = .error () → get_solution env th = none) ∧
    (env.getResult = .ok none → get_solution env th = none) := by
  refine ⟨?_, ?_, ?_, ?_, ?_⟩ <;> intro h
  · simp [store_solution, h]
  · unfold store_solution
    split
    · rfl
    · simp [h]
  · simp [get_solution, h]
  · unfold get_solution
    split
    · rfl
    · simp [h]
  · unfold get_solution
    split
    · rfl
    · simp [h]

/-- Witness for C7 at a concrete unreachable-store environment. -/
theorem C7_store_never_raises_witness :
    store_solution ⟨true, true, .error ()⟩ "h" [] "now" 120 = false ∧
    get_solution ⟨true, true, .error ()⟩ "h" = none ∧
    store_solution ⟨false, false, .ok none⟩ "h" [] "now" 120 = false ∧
    get_solution ⟨false, false, .ok none⟩ "h" = none :=
  ⟨(C7_store_never_raises ⟨true, true, .error ()⟩ "h" "now" [] 120).2.1 rfl,
   (C7_store_never_raises ⟨true, true, .error ()⟩ "h" "now" [] 120).2.2.2.1 rfl,
   (C7_store_never_raises ⟨false, false, .ok none⟩ "h" "now" [] 120).1 rfl,
   (C7_store_never_raises ⟨false, false, .ok none⟩ "h" "now" [] 120).2.2.1 rfl⟩

/-- On a store that never yields an entry, the poll loop started at index
`k ≤ ⌈T/p⌉` with enough fuel stops exactly after the poll at index
`⌈T/p⌉`, having performed `⌈T/p⌉ + 1` polls in total. -/
lemma wait_go_never (getAt : Nat → Option Json) (T p : ℚ) (hp : 0 < p)
    (hnone : ∀ k, getAt k = none) :
    ∀ fuel k, k ≤ Nat.ceil (T / p) → Nat.ceil (T / p) + 1 ≤ k + fuel →
      wait_go getAt T p fuel k = (none, Nat.ceil (T / p) + 1) := by
  intro fuel
  induction fuel with
  | zero => intro k h1 h2; omega
  | succ f ih =>
    intro k h1 h2
    by_cases hto : T ≤ (k : ℚ) * p
    · have hk : Nat.ceil (T / p) ≤ k := by
        rw [Nat.ceil_le]
        rw [div_le_iff₀ hp]
        exact hto
      have hk2 : k = Nat.ceil (T / p) := le_antisymm h1 hk
      subst hk2
      simp [wait_go, hnone, hto]
    · have hk : k < Nat.ceil (T / p) := by
        apply Nat.lt_ceil.2
        rw [lt_div_iff₀ hp]
        exact lt_of_not_le hto
      rw [show f + 1 = f.succ from rfl, wait_go, hnone k, if_neg hto]
      exact ih (k + 1) (by omega) (by omega)

/-- C8: with a positive timeout `T` and poll interval `p`, and a store that
never holds the entry, the wait terminates, returns absent, and performs
exactly `⌈T/p⌉ + 1` polls — one poll per interval until the elapsed time
reaches the timeout (for the defaults `T = 55`, `p = 1/2` this is the
claimed `T/p + 1`). -/
theorem C8_wait_timeout_bounded (getAt : Nat → Option Json) (T p : ℚ)
    (hT : 0 < T) (hp : 0 < p) (hnone : ∀ k, getAt k = none) :
    wait_for_solution true getAt T p = (none, Nat.ceil (T / p) + 1) ∧
    (wait_for_solution true getAt T p).2 ≤ Nat.ceil (T / p) + 1 := by
  have h := wait_go_never getAt T p hp hnone (Nat.ceil (T / p) + 1) 0
    (Nat.zero_le _) (by omega)
  constructor
  · simpa [wait_for_solution] using h
  · simp [wait_for_solution, h]

/-- Witness for C8 at timeout 2 and poll interval 1: three polls, absent. -/
theorem C8_wait_timeout_bounded_witness :
    wait_for_solution true (fun _ => none) 2 1 = (none, 3) := by
  have h := (C8_wait_timeout_bounded (fun _ => none) 2 1 (by norm_num) (by norm_num)
    (fun _ => rfl)).1
  have hc : Nat.ceil ((2 : ℚ) / 1) = 2 := by norm_num
  rw [h, hc]

/-- A non-parent node's local tail returns exactly the solo result. -/
lemma completeLocalTail_fst (env : CompleteEnv) (ci : ComponentInput)
    (pre : List MinerAction) (hnp : ¬ env.miner_type = "parent") :
    (completeLocalTail env ci pre).1 = solo_complete env ci := by
  unfold completeLocalTail solo_complete
  cases hp : parse_json_response env.llmResponse with
  | error e => simp [hp]
  | ok v =>
    obtain ⟨imm, nb⟩ := v
    simp [hp, hnp]

/-- The local tail adds no wait action and exactly one generator call. -/
lemma completeLocalTail_trace (env : CompleteEnv) (ci : ComponentInput)
    (pre : List MinerAction) :
    (completeLocalTail env ci pre).2.countP (fun a => a.isWait) =
      pre.countP (fun a => a.isWait) ∧
    (completeLocalTail env ci pre).2.countP (fun a => a.isCallGen) =
      pre.countP (fun a => a.isCallGen) + 1 := by
  unfold completeLocalTail
  cases hp : parse_json_response env.llmResponse with
  | error e =>
    simp [List.countP_append, List.countP_cons, MinerAction.isWait, MinerAction.isCallGen]
  | ok v =>
    obtain ⟨imm, nb⟩ := v
    simp only [hp]
    split <;>
      simp [List.countP_append, List.countP_cons, MinerAction.isWait, MinerAction.isCallGen]

/-- C4: a waiter (child) node that finds no payload — wait timed out or
store unavailable — falls back to behaving as solo (one generator call) and
never waits more than once; a waiter that finds a dict payload returns its
fields (verbatim when present) without invoking the generator. -/
theorem C4_waiter_fallback (env : CompleteEnv) (ci : ComponentInput)
    (hchild : env.miner_type = "child") :
    ((env.redisAvailable = false ∨ env.waitResult = none) →
      (component_complete env ci).1 = solo_complete env ci ∧
      (component_complete env ci).2.countP (fun a => a.isWait) ≤ 1 ∧
      (component_complete env ci).2.countP (fun a => a.isCallGen) = 1) ∧
    (∀ sol : List (String × Json), env.redisAvailable = true →
      env.waitResult = some (.obj sol) →
      (component_complete env ci).1 =
        .ok ⟨(pyGet sol "immediate_response").getD (.str ""),
             (pyGet sol "notebook").getD (.str "no update")⟩ ∧
      (component_complete env ci).2 =
        [.waitSolution (get_solution_key (taskHashOf ci))] ∧
      (∀ rv av, pyGet sol "immediate_response" = some rv →
        pyGet sol "notebook" = some av →
        (component_complete env ci).1 = .ok ⟨rv, av⟩)) := by
  have hnp : ¬ env.miner_type = "parent" := by simp [hchild]
  constructor
  · intro hfall
    by_cases hra : env.redisAvailable
    · have hwr : env.waitResult = none := by
        rcases hfall with h | h
        · rw [h] at hra; cases hra
        · exact h
      have hcond : env.miner_type = "child" ∧ env.redisAvailable = true := ⟨hchild, by simp [hra]⟩
      have hcc : component_complete env ci =
          completeLocalTail env ci
            [.waitSolution (get_solution_key (generate_task_hash ci.task ci.input))] := by
        unfold component_complete
        rw [if_pos ⟨hchild, by simp [hra]⟩, hwr]
      rw [hcc]
      refine ⟨completeLocalTail_fst _ _ _ hnp, ?_, ?_⟩
      · rw [(completeLocalTail_trace _ _ _).1]
        simp [List.countP_cons, MinerAction.isWait]
      · rw [(completeLocalTail_trace _ _ _).2]
        simp [List.countP_cons, MinerAction.isCallGen]
    · have hcc : component_complete env ci = completeLocalTail env ci [] := by
        unfold component_complete
        rw [if_neg (by simp [hra])]
      rw [hcc]
      refine ⟨completeLocalTail_fst _ _ _ hnp, ?_, ?_⟩
      · rw [(completeLocalTail_trace _ _ _).1]
        simp
      · rw [(completeLocalTail_trace _ _ _).2]
        simp
  · intro sol hra hwr
    have hcc : component_complete env ci =
        (.ok ⟨(pyGet sol "immediate_response").getD (.str ""),
              (pyGet sol "notebook").getD (.str "no update")⟩,
         [.waitSolution (get_solution_key (generate_task_hash ci.task ci.input))]) := by
      unfold component_complete
      rw [if_pos ⟨hchild, by simp [hra]⟩, hwr]
    refine ⟨by rw [hcc], by rw [hcc]; rfl, ?_⟩
    intro rv av hrv hav
    rw [hcc]
    simp [hrv, hav]

/-- Witness for C4 at a concrete waiter environment whose wait timed out. -/
theorem C4_waiter_fallback_witness :
    (component_complete ⟨"child", true, none, "hello"⟩ ⟨"c", "t", [], []⟩).1 =
      solo_complete ⟨"child", true, none, "hello"⟩ ⟨"c", "t", [], []⟩ ∧
    (component_complete ⟨"child", true, none, "hello"⟩ ⟨"c", "t", [], []⟩).2.countP
      (fun a => a.isCallGen) = 1 :=
  have h := (C4_waiter_fallback ⟨"child", true, none, "hello"⟩ ⟨"c", "t", [], []⟩
    rfl).1 (Or.inr rfl)
  ⟨h.1, h.2.2⟩

/-- C1: the extractor is claimed never to raise and to degrade to the raw
text with the sentinel on total parse failure.  The degradation half holds
(second conjunct, at the non-JSON input `"hello world"`), but the
never-raise half is contradicted by the code: on a raw response that is
valid JSON without being an object — such as `"42"` — the main path's
`result.get` raises an uncaught `AttributeError` (only `JSONDecodeError`,
`IndexError` and `ValueError` are caught there). -/
theorem C1_extractor_attribute_error :
    parse_json_response "42" = .error .attributeError ∧
    parse_json_response "hello world" = .ok (.str "hello world", "no update") :=
  ⟨by rfl, by rfl⟩

/-- A successful array parse always returns an array value. -/
lemma parseArrItems_arr (fuel : Nat) :
    ∀ cs acc first v rest, parseArrItems fuel cs acc first = some (v, rest) →
      ∃ xs, v = Json.arr xs := by
  induction fuel with
  | zero => intro cs acc first v rest h; simp [parseArrItems] at h
  | succ f ih =>
    intro cs acc first v rest h
    unfold parseArrItems at h
    rcases hsk : jsonSkipWs cs with _ | ⟨c, cr⟩ <;> simp only [hsk] at h
    · split at h
      · simp at h
      · split at h
        · exact ih _ _ _ _ _ h
        · simp at h
          exact ⟨_, h.1.symm⟩
        · simp at h
    · split at h
      · split at h
        · simp at h
          exact ⟨_, h.1.symm⟩
        · simp at h
      · split at h
        · simp at h
        · split at h
          · exact ih _ _ _ _ _ h
          · simp at h
            exact ⟨_, h.1.symm⟩
          · simp at h

/-- A successful object parse always returns an object value. -/
lemma parseObjItems_obj (fuel : Nat) :
    ∀ cs acc first v rest, parseObjItems fuel cs acc first = some (v, rest) →
      ∃ kvs, v = Json.obj kvs := by
  induction fuel with
  | zero => intro cs acc first v rest h; simp [parseObjItems] at h
  | succ f ih =>
    intro cs acc first v rest h
    unfold parseObjItems at h
    rcases hsk : jsonSkipWs cs with _ | ⟨c, cr⟩ <;> simp only [hsk] at h
    · simp at h
    · split at h
      · split at h
        · simp at h
          exact ⟨_, h.1.symm⟩
        · simp at h
      · split at h
        · simp at h
        · split at h
          · split at h
            · simp at h
            · split at h
              · exact ih _ _ _ _ _ h
              · simp at h
                exact ⟨_, h.1.symm⟩
              · simp at h
          · simp at h
      · simp at h

/-- A successful number parse returns an integer or float value. -/
lemma parseNumber_num (cs : List Char) (v : Json) (rest : List Char)
    (h : parseNumber cs = some (v, rest)) :
    (∃ n, v = Json.jint n) ∨ (∃ lx, v = Json.jfloat lx) := by
  unfold parseNumber at h
  repeat' split at h
  all_goals simp at h
  all_goals try exact Or.inl ⟨_, h.1.symm⟩
  all_goals exact Or.inr ⟨_, h.1.symm⟩

/-- A parse that yields an object consumed an opening brace: the first
non-whitespace character of the input is `{`. -/
lemma parseValue_obj_head (fuel : Nat) (cs : List Char) (kvs : List (String × Json))
    (rest : List Char) (h : parseValue fuel cs = some (.obj kvs, rest)) :
    ∃ t, jsonSkipWs cs = '\x7b' :: t := by
  cases fuel with
  | zero => simp [parseValue] at h
  | succ f =>
    unfold parseValue at h
    rcases hsk : jsonSkipWs cs with _ | ⟨c, cr⟩ <;> simp only [hsk] at h
    · simp at h
    · by_cases hc : c = '\x7b'
      · exact ⟨cr, by rw [hc]⟩
      · rw [if_neg hc] at h
        exfalso
        repeat' split at h
        all_goals first
          | (simp_all; done)
          | (obtain ⟨xs, hxs⟩ := parseArrItems_arr _ _ _ _ _ _ h; cases hxs)
          | (rcases parseNumber_num _ _ _ h with ⟨n, hn⟩ | ⟨lx, hlx⟩ <;> simp_all)

/-- When `json.loads` returns an object, the first non-whitespace
character of the text is an opening brace. -/
lemma jsonLoads_obj_head (s : String) (kvs : List (String × Json))
    (h : jsonLoads s = some (.obj kvs)) :
    ∃ t, jsonSkipWs s.toList = '\x7b' :: t := by
  unfold jsonLoads at h
  rcases hp : parseValue (s.toList.length + 1) s.toList with _ | ⟨v, rest⟩ <;>
    simp only [hp] at h
  · simp at h
  · split at h
    · simp at h
      exact parseValue_obj_head _ _ _ _ (h ▸ hp)
    · simp at h

/-- The head of a `dropWhile` result fails the dropped predicate. -/
lemma head_dropWhile_false {α : Type} (p : α → Bool) :
    ∀ (l : List α) (a : α), (l.dropWhile p).head? = some a → p a = false := by
  intro l
  induction l with
  | nil => intro a h; simp [List.dropWhile] at h
  | cons x xs ih =>
    intro a h
    rw [List.dropWhile_cons] at h
    by_cases hx : p x
    · rw [if_pos hx] at h
      exact ih a h
    · rw [if_neg hx] at h
      simp at h
      subst h
      simpa using hx

/-- The first character of a stripped string is not Python whitespace. -/
lemma pyStripList_head (cs : List Char) (a : Char) (t : List Char)
    (h : pyStripList cs = a :: t) : isPyWs a = false := by
  unfold pyStripList at h
  have h2 := List.takeWhile_append_dropWhile
    (p := isPyWs) (l := (cs.dropWhile isPyWs).reverse)
  have h3 : cs.dropWhile isPyWs =
      ((cs.dropWhile isPyWs).reverse.dropWhile isPyWs).reverse ++
        ((cs.dropWhile isPyWs).reverse.takeWhile isPyWs).reverse :=
    calc cs.dropWhile isPyWs
        = ((cs.dropWhile isPyWs).reverse).reverse := (List.reverse_reverse _).symm
      _ = (List.takeWhile isPyWs (cs.dropWhile isPyWs).reverse ++
            List.dropWhile isPyWs (cs.dropWhile isPyWs).reverse).reverse := by rw [h2]
      _ = ((cs.dropWhile isPyWs).reverse.dropWhile isPyWs).reverse ++
            ((cs.dropWhile isPyWs).reverse.takeWhile isPyWs).reverse := by
          rw [List.reverse_append]
  rw [h] at h3
  have h5 : (cs.dropWhile isPyWs).head? = some a := by
    rw [h3]
    rfl
  exact head_dropWhile_false isPyWs cs a h5

/-- JSON whitespace is Python whitespace. -/
lemma jsonWs_imp_pyWs (c : Char) :
    (c = ' ' || c = '\t' || c = '\n' || c = '\r') = true → isPyWs c = true := by
  intro h
  unfold isPyWs
  simp at h ⊢
  tauto

/-- A stripped string is unchanged by the JSON whitespace skip. -/
lemma jsonSkipWs_pyStrip (s : String) :
    jsonSkipWs (pyStrip s).toList = (pyStrip s).toList := by
  have he : (pyStrip s).toList = pyStripList s.toList := rfl
  rw [he]
  cases h : pyStripList s.toList with
  | nil => rfl
  | cons a t =>
    have ha := pyStripList_head _ _ _ h
    have hj : (a = ' ' || a = '\t' || a = '\n' || a = '\r') = false := by
      by_contra hcon
      have : (a = ' ' || a = '\t' || a = '\n' || a = '\r') = true := by
        revert hcon
        cases (a = ' ' || a = '\t' || a = '\n' || a = '\r') <;> simp
      rw [jsonWs_imp_pyWs a this] at ha
      cases ha
    show List.dropWhile _ (a :: t) = a :: t
    rw [List.dropWhile_cons]
    simp [hj]

/-- When the stripped response parses as an object, it starts with `{`. -/
lemma pyStrip_startsWith_brace (r : String) (kvs : List (String × Json))
    (h : jsonLoads (pyStrip r) = some (.obj kvs)) :
    pyStartsWith (pyStrip r) "\x7b" = true := by
  obtain ⟨t, ht⟩ := jsonLoads_obj_head _ _ h
  rw [jsonSkipWs_pyStrip] at ht
  show ("\x7b".toList).isPrefixOf (pyStrip r).toList = true
  rw [ht]
  simp [List.isPrefixOf]

/-- Without fence markers, strategy 1 leaves the text unchanged. -/
lemma applyFenceStrategies_id (rt : String)
    (h1 : strContains rt "```json" = false) (h2 : strContains rt "```" = false) :
    applyFenceStrategies rt = rt := by
  simp [applyFenceStrategies, h1, h2]

/-- On text already starting with a brace, strategy 2 is the identity. -/
lemma applyBraceSlice_id (rt : String) (h : pyStartsWith rt "\x7b" = true) :
    applyBraceSlice rt = rt := by
  simp [applyBraceSlice, h]

/-- Notebook normalization keeps a string that does not look like a JSON
object or array. -/
lemma extractNotebook_plain (a : String)
    (hplain : ((pyStartsWith (pyStrip a) "\x7b" || pyStartsWith (pyStrip a) "[") &&
               (pyEndsWith (pyStrip a) "\x7d" || pyEndsWith (pyStrip a) "]")) = false) :
    extractNotebook (.str a) = a := by
  unfold extractNotebook notebookFuel extract_notebook_content
  simp [hplain]

/-- The extractor on a parse that found the dict `kvs`, reduced to the
strategy-free pipeline. -/
lemma parse_json_response_of_obj (response : String) (kvs : List (String × Json))
    (hf1 : strContains (pyStrip response) "```json" = false)
    (hf2 : strContains (pyStrip response) "```" = false)
    (hobj : jsonLoads (pyStrip response) = some (.obj kvs)) :
    parse_json_response response = .ok (parseSuccess response kvs) := by
  have hsw := pyStrip_startsWith_brace response kvs hobj
  simp only [parse_json_response, applyFenceStrategies_id _ hf1 hf2,
    applyBraceSlice_id _ hsw, hobj]

/-- The field-extraction step when the double-encoding probe finds no
inner reply: both defaults stand and only the artifact is normalized. -/
lemma parseSuccess_no_unwrap (response : String) (kvs : List (String × Json))
    (hnoinner : (try_parse_json_string
      ((pyGet kvs "immediate_response").getD (.str response))).1 = none) :
    parseSuccess response kvs =
      ((pyGet kvs "immediate_response").getD (.str response),
       extractNotebook ((pyGet kvs "notebook").getD (.str "no update"))) := by
  unfold parseSuccess
  rcases hp : try_parse_json_string
      ((pyGet kvs "immediate_response").getD (.str response)) with ⟨i1, i2⟩
  rw [hp] at hnoinner
  have h1 : i1 = none := hnoinner
  subst h1
  simp only [hp]

/-- The field-extraction step when the double-encoding probe finds an
inner reply: the inner fields are preferred, then the artifact is
normalized. -/
lemma parseSuccess_unwrap (response : String) (kvs : List (String × Json))
    (s : String) (iv : Json) (inb : Option Json)
    (him : pyGet kvs "immediate_response" = some (.str s))
    (hinner : try_parse_json_string (.str s) = (some iv, inb)) :
    parseSuccess response kvs =
      (iv, extractNotebook
        (inb.getD ((pyGet kvs "notebook").getD (.str "no update")))) := by
  unfold parseSuccess
  simp only [him, Option.getD_some, hinner]
  cases inb <;> rfl

/-- C5 counterexample: on the well-formed object `{"notebook":"[1]"}` the
artifact field is not returned exactly — the string `"[1]"` is normalized
to `"1"` (the reply correctly defaults to the raw text). -/
theorem C5_counterexample :
    parse_json_response "\x7b\"notebook\":\"[1]\"\x7d" =
      .ok (.str "\x7b\"notebook\":\"[1]\"\x7d", "1") ∧
    ("1" : String) ≠ "[1]" :=
  ⟨by rfl, by decide⟩

/-- C5 amended: for a raw response that is exactly a well-formed JSON
object, contains no code-fence marker, whose reply value (or the defaulted
raw text) does not trigger the double-encoding unwrap, and whose artifact
is absent or a plain string not shaped like a JSON object or array:
extraction returns the reply field exactly (defaulting to the raw text
when absent) and the artifact field exactly (defaulting to the sentinel
"no update" when absent). -/
theorem C5_wellformed_fields (response : String) (kvs : List (String × Json))
    (hf1 : strContains (pyStrip response) "```json" = false)
    (hf2 : strContains (pyStrip response) "```" = false)
    (hobj : jsonLoads (pyStrip response) = some (.obj kvs))
    (hnoinner : (try_parse_json_string
      ((pyGet kvs "immediate_response").getD (.str response))).1 = none)
    (hnb : pyGet kvs "notebook" = none ∨
           ∃ a, pyGet kvs "notebook" = some (.str a) ∧
             ((pyStartsWith (pyStrip a) "\x7b" || pyStartsWith (pyStrip a) "[") &&
              (pyEndsWith (pyStrip a) "\x7d" || pyEndsWith (pyStrip a) "]")) = false) :
    parse_json_response response =
      .ok ((pyGet kvs "immediate_response").getD (.str response),
           match pyGet kvs "notebook" with
           | some (.str a) => a
           | _ => "no update") := by
  rw [parse_json_response_of_obj response kvs hf1 hf2 hobj,
    parseSuccess_no_unwrap response kvs hnoinner]
  rcases hnb with hnb | ⟨a, hnb, hplain⟩
  · rw [hnb]
    rfl
  · rw [hnb]
    simp only [Option.getD_some]
    rw [extractNotebook_plain a hplain]

/-- Witness for C5: the spec's idempotence example, and a reply embedding
an object whose `immediate_response` is JSON null — the probe sees Python
`None` there, so no unwrap fires and the outer fields are returned. -/
theorem C5_wellformed_fields_witness :
    parse_json_response "\x7b\"immediate_response\": \"x\", \"notebook\": \"y\"\x7d" =
      .ok (.str "x", "y") ∧
    parse_json_response
        "\x7b\"immediate_response\": \"\x7b\\\"immediate_response\\\": null, \\\"notebook\\\": \\\"A\\\"\x7d\", \"notebook\": \"B\"\x7d" =
      .ok (.str "\x7b\"immediate_response\": null, \"notebook\": \"A\"\x7d", "B") := by
  constructor
  · exact C5_wellformed_fields "\x7b\"immediate_response\": \"x\", \"notebook\": \"y\"\x7d"
      [("immediate_response", .str "x"), ("notebook", .str "y")]
      (by rfl) (by rfl) (by rfl) (by rfl)
      (Or.inr ⟨"y", by rfl, by rfl⟩)
  · exact C5_wellformed_fields
      "\x7b\"immediate_response\": \"\x7b\\\"immediate_response\\\": null, \\\"notebook\\\": \\\"A\\\"\x7d\", \"notebook\": \"B\"\x7d"
      [("immediate_response",
        .str "\x7b\"immediate_response\": null, \"notebook\": \"A\"\x7d"),
       ("notebook", .str "B")]
      (by rfl) (by rfl) (by rfl) (by rfl)
      (Or.inr ⟨"B", by rfl, by rfl⟩)

/-- C6 counterexample: a reply that embeds an object carrying only an
artifact field is not unwrapped — the code requires an inner reply field —
so the outer fields are kept (`B`), not the inner artifact (`A`). -/
theorem C6_counterexample :
    parse_json_response
        "\x7b\"immediate_response\": \"\x7b\\\"notebook\\\": \\\"A\\\"\x7d\", \"notebook\": \"B\"\x7d" =
      .ok (.str "\x7b\"notebook\": \"A\"\x7d", "B") ∧
    ("B" : String) ≠ "A" :=
  ⟨by rfl, by decide⟩

/-- C6 amended: the double-encoding unwrap fires exactly when the reply is
a string that parses as an embedded object whose probe finds an inner
reply; extraction then returns the inner reply, and the inner artifact when
present (falling back to the outer artifact), followed by artifact
normalization.  An embedded object carrying only an artifact field leaves
both outer fields in place. -/
theorem C6_unwrap_inner (response : String) (kvs : List (String × Json))
    (s : String) (iv : Json) (inb : Option Json)
    (hf1 : strContains (pyStrip response) "```json" = false)
    (hf2 : strContains (pyStrip response) "```" = false)
    (hobj : jsonLoads (pyStrip response) = some (.obj kvs))
    (him : pyGet kvs "immediate_response" = some (.str s))
    (hinner : try_parse_json_string (.str s) = (some iv, inb)) :
    parse_json_response response =
      .ok (iv, extractNotebook
        (inb.getD ((pyGet kvs "notebook").getD (.str "no update")))) := by
  rw [parse_json_response_of_obj response kvs hf1 hf2 hobj,
    parseSuccess_unwrap response kvs s iv inb him hinner]

/-- Witness for C6: the spec's double-encoding example, and an embedded
object whose inner `notebook` is JSON null — the probe reports Python
`None` for it, so the inner reply is taken but the outer artifact stays. -/
theorem C6_unwrap_inner_witness :
    parse_json_response
        "\x7b\"immediate_response\":\"\x7b\\\"immediate_response\\\":\\\"inner\\\",\\\"notebook\\\":\\\"A\\\"\x7d\",\"notebook\":\"no update\"\x7d" =
      .ok (.str "inner", "A") ∧
    parse_json_response
        "\x7b\"immediate_response\": \"\x7b\\\"immediate_response\\\": \\\"x\\\", \\\"notebook\\\": null\x7d\", \"notebook\": \"B\"\x7d" =
      .ok (.str "x", "B") := by
  constructor
  · rw [C6_unwrap_inner
      "\x7b\"immediate_response\":\"\x7b\\\"immediate_response\\\":\\\"inner\\\",\\\"notebook\\\":\\\"A\\\"\x7d\",\"notebook\":\"no update\"\x7d"
      [("immediate_response",
        .str "\x7b\"immediate_response\":\"inner\",\"notebook\":\"A\"\x7d"),
       ("notebook", .str "no update")]
      "\x7b\"immediate_response\":\"inner\",\"notebook\":\"A\"\x7d"
      (.str "inner") (some (.str "A"))
      (by rfl) (by rfl) (by rfl) (by rfl) (by rfl)]
    rfl
  · rw [C6_unwrap_inner
      "\x7b\"immediate_response\": \"\x7b\\\"immediate_response\\\": \\\"x\\\", \\\"notebook\\\": null\x7d\", \"notebook\": \"B\"\x7d"
      [("immediate_response",
        .str "\x7b\"immediate_response\": \"x\", \"notebook\": null\x7d"),
       ("notebook", .str "B")]
      "\x7b\"immediate_response\": \"x\", \"notebook\": null\x7d"
      (.str "x") none
      (by rfl) (by rfl) (by rfl) (by rfl) (by rfl)]
    rfl
